import Mathlib

/-!
Verification of the quiz-generation / tutoring pipeline of
`backend/ai_engine.py` (repository genius-guru).

The pipeline post-processes the text returned by an external LLM
("Completion Capability"):
  * `generate_tutoring_response` extracts text from one of a few known
    response shapes and post-processes it (`format_tutoring_response`);
  * `generate_quiz` builds a prompt, calls the LLM once, parses the reply as
    JSON (`_parse_quiz_response`), schema-validates it
    (`_validate_quiz_data`), truncates, backfills missing explanations,
    substitutes a deterministic fallback quiz (`_create_fallback_quiz`) on
    parse/validation failure, and optionally renders interactive HTML
    (`_format_quiz_with_reveal`).

The embedding models Python values returned by `json.loads` as the inductive
`Json` (numbers as integers — the pipeline never computes with numerics),
Python exceptions as the `PyErr` error type of `Except`, and the external
LLM call as an explicit parameter: `Except PyErr (Option Json)` for the quiz
path (`.error` = the capability raised, `.ok none` = the returned text is not
valid JSON, i.e. `json.loads` raised `JSONDecodeError`, `.ok (some j)` = the
returned text parses to `j`), and `Except PyErr LLMResponse` for the
tutoring path.  Python dicts are association lists in insertion order (as
CPython dicts are); `json.loads` never produces duplicate keys.
-/

namespace GeniusGuru

/-- A JSON value as produced by Python's `json.loads`. Numbers are modelled as
integers; objects are key/value lists in insertion order. -/
inductive Json where
  | null : Json
  | bool (b : Bool) : Json
  | num (n : Int) : Json
  | str (s : String) : Json
  | arr (elems : List Json) : Json
  | obj (fields : List (String × Json)) : Json

/-- The Python exceptions the pipeline can raise or catch.  `exception` is a
plain `Exception(msg)`. -/
inductive PyErr where
  | jsonDecodeError (msg : String) : PyErr
  | valueError (msg : String) : PyErr
  | typeError (msg : String) : PyErr
  | keyError (key : String) : PyErr
  | indexError (msg : String) : PyErr
  | exception (msg : String) : PyErr

/-- `str(e)` for the exceptions above (Python renders a `KeyError` as the
repr of its key). -/
def PyErr.msg : PyErr → String
  | .jsonDecodeError m => m
  | .valueError m => m
  | .typeError m => m
  | .keyError k => "'" ++ k ++ "'"
  | .indexError m => m
  | .exception m => m

mutual

/-- Python `==` on `json.loads` values: `True == 1`, `False == 0`, numbers by
value, strings by contents, lists pointwise, dicts by their key/value pairs
(dicts parsed from JSON have unique keys; comparing them pairwise in order is
faithful for the equal-length, equal-order case that arises here). -/
def pyEq : Json → Json → Bool
  | .null, .null => true
  | .bool a, .bool b => a == b
  | .bool a, .num n => (if a then (1 : Int) else 0) == n
  | .num n, .bool b => n == (if b then (1 : Int) else 0)
  | .num a, .num b => a == b
  | .str a, .str b => a == b
  | .arr a, .arr b => pyEqList a b
  | .obj a, .obj b => pyEqFields a b
  | _, _ => false

def pyEqList : List Json → List Json → Bool
  | [], [] => true
  | a :: l, b :: m => pyEq a b && pyEqList l m
  | _, _ => false

def pyEqFields : List (String × Json) → List (String × Json) → Bool
  | [], [] => true
  | kv :: l, kw :: m => kv.1 == kw.1 && pyEq kv.2 kw.2 && pyEqFields l m
  | _, _ => false

end

mutual

/-- Python `repr` of a `json.loads` value (used by `str` on containers).
Escaping of special characters inside string reprs is abstracted away: the
pipeline only ever formats plain text. -/
def pyRepr : Json → String
  | .null => "None"
  | .bool true => "True"
  | .bool false => "False"
  | .num n => toString n
  | .str s => "'" ++ s ++ "'"
  | .arr l => "[" ++ pyReprList l ++ "]"
  | .obj fs => "\x7b" ++ pyReprFields fs ++ "\x7d"

def pyReprList : List Json → String
  | [] => ""
  | [a] => pyRepr a
  | a :: l => pyRepr a ++ ", " ++ pyReprList l

def pyReprFields : List (String × Json) → String
  | [] => ""
  | [kv] => "'" ++ kv.1 ++ "': " ++ pyRepr kv.2
  | kv :: l => "'" ++ kv.1 ++ "': " ++ pyRepr kv.2 ++ ", " ++ pyReprFields l

end

/-- Python `str` of a `json.loads` value (as an f-string formats it). -/
def pyStr : Json → String
  | .str s => s
  | j => pyRepr j

/-- Python iteration `for x in j`: lists yield elements, strings yield
one-character strings, dicts yield their keys; other values raise
`TypeError`. -/
def pyIter : Json → Except PyErr (List Json)
  | .arr l => .ok l
  | .str s => .ok (s.data.map (fun c => .str (String.singleton c)))
  | .obj fs => .ok (fs.map (fun kv => .str kv.1))
  | _ => .error (.typeError "argument of type 'int' is not iterable")

/-- Python `v in j`: key test for dicts, substring test for strings,
elementwise `==` for lists; anything else raises `TypeError` (as does an
unhashable key against a dict). -/
def pyContains : Json → Json → Except PyErr Bool
  | .obj fs, .str k => .ok (fs.any (fun kv => kv.1 == k))
  | .obj _, .arr _ => .error (.typeError "unhashable type: 'list'")
  | .obj _, .obj _ => .error (.typeError "unhashable type: 'dict'")
  | .obj _, _ => .ok false
  | .str s, .str k => .ok (decide (List.IsInfix k.data s.data))
  | .str _, _ => .error (.typeError "'in <string>' requires string as left operand")
  | .arr l, v => .ok (l.any (fun x => pyEq v x))
  | _, _ => .error (.typeError "argument of type 'int' is not iterable")

/-- First binding of key `k` in an association list (CPython dict lookup;
keys are unique in dicts built by `json.loads`). -/
def lookupField (fs : List (String × Json)) (k : String) : Option Json :=
  (fs.find? (fun kv => kv.1 == k)).map (fun kv => kv.2)

/-- Python `j[k]` for a string key: dict lookup (`KeyError` when absent);
strings and lists require integer indices, other values are not
subscriptable — all `TypeError`. -/
def pySubscript : Json → String → Except PyErr Json
  | .obj fs, k =>
    match lookupField fs k with
    | some v => .ok v
    | none => .error (.keyError k)
  | .str _, _ => .error (.typeError "string indices must be integers")
  | .arr _, _ => .error (.typeError "list indices must be integers")
  | _, _ => .error (.typeError "object is not subscriptable")

/-- Replace the binding of `k` (CPython keeps its position) or append a new
binding at the end (CPython insertion order). -/
def setField : List (String × Json) → String → Json → List (String × Json)
  | [], k, v => [(k, v)]
  | kv :: l, k, v => if kv.1 == k then (kv.1, v) :: l else kv :: setField l k v

/-- Python `j[k] = v` for a string key: only dicts support item assignment. -/
def pySetItem : Json → String → Json → Except PyErr Json
  | .obj fs, k, v => .ok (.obj (setField fs k v))
  | _, _, _ => .error (.typeError "object does not support item assignment")

/-- Python `len(j)`. -/
def pyLen : Json → Except PyErr Nat
  | .arr l => .ok l.length
  | .str s => .ok s.length
  | .obj fs => .ok fs.length
  | _ => .error (.typeError "object has no len()")

/-- Python `j[:n]` for `0 ≤ n`: prefix of a list or string; dicts and other
values raise `TypeError`. -/
def pySlice : Json → Nat → Except PyErr Json
  | .arr l, n => .ok (.arr (l.take n))
  | .str s, n => .ok (.str (String.mk (s.data.take n)))
  | _, _ => .error (.typeError "unhashable type: 'slice'")

/-! ### `_validate_quiz_data` (ai_engine.py lines 135-142)

```python
def _validate_quiz_data(quiz_data):
    for question in quiz_data:
        if not all(key in question for key in ["question", "options", "correct_answer"]):
            raise ValueError("Each quiz item must have question, options, and correct_answer")
        if not isinstance(question["options"], list) or len(question["options"]) != 4:
            raise ValueError("Each question must have exactly 4 options")
        if question["correct_answer"] not in question["options"]:
            raise ValueError("The correct answer must be one of the options")
```
-/

/-- The keys `_validate_quiz_data` requires, in the order it tests them. -/
def requiredQuizKeys : List String := ["question", "options", "correct_answer"]

/-- `all(key in question for key in keys)` with Python's short-circuiting: a
`TypeError` from `in` propagates, a first missing key stops the scan. -/
def allKeysIn (question : Json) : List String → Except PyErr Bool
  | [] => .ok true
  | k :: ks =>
    match pyContains question (.str k) with
    | .error e => .error e
    | .ok b => if b then allKeysIn question ks else .ok false

/-- The body of `_validate_quiz_data`'s loop for one `question`.  Note that
the three checks raise `ValueError`, but the `in` / subscript operations
themselves raise `TypeError` on a non-container `question` — and
`_parse_quiz_response` only catches `ValueError` (and `JSONDecodeError`). -/
def validateQuestion (question : Json) : Except PyErr Unit :=
  match allKeysIn question requiredQuizKeys with
  | .error e => .error e
  | .ok false =>
    .error (.valueError "Each quiz item must have question, options, and correct_answer")
  | .ok true =>
    match pySubscript question "options" with
    | .error e => .error e
    | .ok opts =>
      if !(match opts with | .arr l => l.length == 4 | _ => false) then
        .error (.valueError "Each question must have exactly 4 options")
      else
        match pySubscript question "correct_answer" with
        | .error e => .error e
        | .ok ca =>
          match pySubscript question "options" with
          | .error e => .error e
          | .ok opts2 =>
            match pyContains opts2 ca with
            | .error e => .error e
            | .ok mem =>
              if !mem then
                .error (.valueError "The correct answer must be one of the options")
              else .ok ()

/-- The loop of `_validate_quiz_data` over the items already produced by
iteration. -/
def validateList : List Json → Except PyErr Unit
  | [] => .ok ()
  | q :: qs =>
    match validateQuestion q with
    | .error e => .error e
    | .ok _ => validateList qs

/-- `_validate_quiz_data(quiz_data)`: iterate (raising `TypeError` on a
non-iterable) and run the checks on each item. -/
def _validate_quiz_data (quiz_data : Json) : Except PyErr Unit :=
  match pyIter quiz_data with
  | .error e => .error e
  | .ok qs => validateList qs

/-! ### `_create_fallback_quiz` (lines 123-133) and
`_parse_quiz_response` (lines 144-156) -/

/-- One entry of the fallback quiz (`i` is the 0-based index). -/
def fallbackQuestion (subject : String) (i : Nat) : Json :=
  .obj [("question", .str ("Sample " ++ subject ++ " question " ++ toString (i + 1))),
        ("options", .arr [.str "Option A", .str "Option B", .str "Option C", .str "Option D"]),
        ("correct_answer", .str "Option A"),
        ("explanation", .str "This is a fallback explanation.")]

/-- `_create_fallback_quiz(subject, num_questions)`: the deterministic
placeholder quiz (a list of `num_questions` template questions). -/
def _create_fallback_quiz (subject : String) (num_questions : Nat) : List Json :=
  (List.range num_questions).map (fallbackQuestion subject)

/-- One pass of the explanation-backfill loop body:
```python
if "explanation" not in question:
    question["explanation"] = f"The correct answer is {question['correct_answer']}."
```
(the right-hand side is evaluated before the assignment). -/
def backfillQuestion (question : Json) : Except PyErr Json :=
  match pyContains question (.str "explanation") with
  | .error e => .error e
  | .ok true => .ok question
  | .ok false =>
    match pySubscript question "correct_answer" with
    | .error e => .error e
    | .ok ca =>
      pySetItem question
        "explanation" (.str ("The correct answer is " ++ pyStr ca ++ "."))

/-- The backfill loop over a list of questions, collecting the mutated
items. -/
def backfillList : List Json → Except PyErr (List Json)
  | [] => .ok []
  | q :: qs =>
    match backfillQuestion q with
    | .error e => .error e
    | .ok q2 =>
      match backfillList qs with
      | .error e => .error e
      | .ok rest => .ok (q2 :: rest)

/-- The backfill loop applied to the whole `quiz_data` value.  For a list the
elements are dicts mutated in place, so the list becomes the list of mutated
elements.  For any other iterable (a string or a dict) iteration yields
fresh strings, on which the loop body either skips (when `"explanation"` is
a substring) or raises `TypeError`; the container itself is unchanged. -/
def backfillAll (quiz_data : Json) : Except PyErr Json :=
  match quiz_data with
  | .arr qs =>
    match backfillList qs with
    | .error e => .error e
    | .ok qs2 => .ok (.arr qs2)
  | j =>
    match pyIter j with
    | .error e => .error e
    | .ok items =>
      match backfillList items with
      | .error e => .error e
      | .ok _ => .ok j

/-- `_parse_quiz_response(response_content, subject, num_questions)`.
`parsed` stands for the result of `json.loads(response_content)`: `none`
when the text is not valid JSON (`json.loads` raises `JSONDecodeError`).
The `try` block validates, truncates when longer than `num_questions`, and
backfills explanations; `except (json.JSONDecodeError, ValueError)` replaces
the whole batch by the fallback quiz — any other exception (in particular
the `TypeError` a non-dict quiz item causes) propagates. -/
def _parse_quiz_response (parsed : Option Json) (subject : String) (num_questions : Nat) :
    Except PyErr Json :=
  let attempt : Except PyErr Json :=
    match parsed with
    | none => .error (.jsonDecodeError "Expecting value")
    | some quiz_data =>
      match _validate_quiz_data quiz_data with
      | .error e => .error e
      | .ok _ =>
        match pyLen quiz_data with
        | .error e => .error e
        | .ok len =>
          match (if num_questions < len then pySlice quiz_data num_questions
                 else .ok quiz_data) with
          | .error e => .error e
          | .ok truncated => backfillAll truncated
  match attempt with
  | .ok result => .ok result
  | .error (.jsonDecodeError _) => .ok (.arr (_create_fallback_quiz subject num_questions))
  | .error (.valueError _) => .ok (.arr (_create_fallback_quiz subject num_questions))
  | .error e => .error e

/-! ### `_format_quiz_with_reveal` (lines 181-301): the quiz renderer -/

/-- The fixed head of the rendered document (style sheet and script), up to
and including the `<h2>` title — the initial `html = """..."""` literal. -/
def quizHtmlHeader : String :=
  "
    <html>
    <head>
        <style>
            body \x7b
                font-family: 'Segoe UI', Tahoma, Geneva, Verdana, sans-serif;
                background-color: #f2f4f8;
                color: #333;
                padding: 20px;
            \x7d

            .quiz-card \x7b
                background-color: #fff;
                border-radius: 12px;
                box-shadow: 0 4px 10px rgba(0,0,0,0.1);
                margin: 20px auto;
                padding: 20px;
                max-width: 700px;
                transition: transform 0.3s;
            \x7d

            .quiz-card:hover \x7b
                transform: scale(1.01);
            \x7d

            .question \x7b
                font-size: 18px;
                font-weight: bold;
            \x7d

            .option \x7b
                padding: 10px 14px;
                margin: 8px 0;
                border-radius: 8px;
                border: 1px solid #ccc;
                cursor: pointer;
                transition: background-color 0.3s, transform 0.2s;
            \x7d

            .option:hover \x7b
                background-color: #f0f0f0;
                transform: scale(1.02);
            \x7d

            .selected-correct \x7b
                background-color: #c8f7c5;
                border-color: #28a745;
                font-weight: bold;
            \x7d

            .selected-incorrect \x7b
                background-color: #f8d7da;
                border-color: #dc3545;
            \x7d

            .answer \x7b
                margin-top: 12px;
                padding: 12px;
                background-color: #e9ecef;
                border-left: 5px solid #007bff;
                display: none;
                border-radius: 8px;
            \x7d
        </style>
        <script>
            function handleAnswerSelection(isCorrect, selectedOption, questionNum) \x7b
                if (isCorrect) \x7b
                    selectedOption.className += ' selected-correct';
                \x7d else \x7b
                    selectedOption.className += ' selected-incorrect';
                    revealAnswer(questionNum);
                \x7d
            \x7d

            function revealAnswer(questionNum) \x7b
                const answerDiv = document.getElementById(\"answer-\" + questionNum);
                answerDiv.style.display = 'block';
                answerDiv.scrollIntoView(\x7b behavior: 'smooth', block: 'nearest' \x7d);

                answerDiv.animate([
                    \x7b transform: 'scale(1.05)', opacity: 1 \x7d,
                    \x7b transform: 'scale(1)', opacity: 1 \x7d
                ], \x7b
                    duration: 800,
                    iterations: 1
                \x7d);
            \x7d
        </script>
    </head>
    <body>
    <h2>🧠 Interactive Quiz</h2>
    "

def quizHtmlFooter : String :=
  "
    </body>
    </html>
    "

/-- The inner loop over `question['options']`: each iteration evaluates
`question['correct_answer']` (a `KeyError` propagates), compares it to the
option with Python `==`, and appends one option `div`. -/
def renderOptions (question : Json) (i : Nat) : List Json → Except PyErr String
  | [] => .ok ""
  | o :: os =>
    match pySubscript question "correct_answer" with
    | .error e => .error e
    | .ok ca =>
      match renderOptions question i os with
      | .error e => .error e
      | .ok rest =>
        .ok ("\n                <div class='option' onclick=\"handleAnswerSelection("
          ++ (if pyEq o ca then "true" else "false") ++ ", this, " ++ toString (i + 1)
          ++ ")\">\n                    " ++ pyStr o ++ "\n                </div>\n            "
          ++ rest)

/-- One iteration of the outer loop: the question card, its options and its
hidden answer panel, for the question at 0-based index `i`. -/
def renderQuestion (i : Nat) (question : Json) : Except PyErr String :=
  match pySubscript question "question" with
  | .error e => .error e
  | .ok qText =>
    match pySubscript question "options" with
    | .error e => .error e
    | .ok opts =>
      match pyIter opts with
      | .error e => .error e
      | .ok optItems =>
        match renderOptions question i optItems with
        | .error e => .error e
        | .ok optHtml =>
          match pySubscript question "correct_answer" with
          | .error e => .error e
          | .ok ca =>
            match pySubscript question "explanation" with
            | .error e => .error e
            | .ok expl =>
              .ok ("\n        <div class='quiz-card'>\n            <div class='question'>Q"
                ++ toString (i + 1) ++ ": " ++ pyStr qText
                ++ "</div>\n            <div class='options'>\n        "
                ++ optHtml
                ++ "\n            </div>\n            <div class='answer' id='answer-"
                ++ toString (i + 1)
                ++ "'>\n                <strong>✅ Correct Answer:</strong> " ++ pyStr ca
                ++ "<br>\n                <em>💡 Explanation:</em> " ++ pyStr expl
                ++ "\n            </div>\n        </div>\n        ")

/-- `for i, question in enumerate(quiz_data)` accumulating the cards. -/
def renderQuestions : Nat → List Json → Except PyErr String
  | _, [] => .ok ""
  | i, q :: qs =>
    match renderQuestion i q with
    | .error e => .error e
    | .ok s =>
      match renderQuestions (i + 1) qs with
      | .error e => .error e
      | .ok rest => .ok (s ++ rest)

/-- `_format_quiz_with_reveal(quiz_data)`: header, one card per question,
footer.  A pure function of `quiz_data` — the source touches no clock, no
randomness and no model; a `KeyError`/`TypeError` on malformed quiz data
propagates. -/
def _format_quiz_with_reveal (quiz_data : Json) : Except PyErr String :=
  match pyIter quiz_data with
  | .error e => .error e
  | .ok qs =>
    match renderQuestions 0 qs with
    | .error e => .error e
    | .ok body => .ok (quizHtmlHeader ++ body ++ quizHtmlFooter)

/-! ### `generate_quiz_data` (lines 158-162) and `generate_quiz` (164-179) -/

/-- `_create_tutoring_prompt` (lines 60-83): the tutoring prompt string. -/
def _create_tutoring_prompt (subject level question learning_style background language : String) :
    String :=
  "
Subject: "
    ++ subject
    ++ "
Learning Level: "
    ++ level
    ++ "
Background Knowledge: "
    ++ background
    ++ "
Learning Style Preference: "
    ++ learning_style
    ++ "
Language Preference: "
    ++ language
    ++ "

QUESTION:
"
    ++ question
    ++ "

INSTRUCTIONS:
1. Provide a clear, educational explanation that directly addresses the question
2. Tailor your explanation to a "
    ++ background
    ++ " student at "
    ++ level
    ++ " level
3. Use "
    ++ language
    ++ " as the primary language
4. Format your response with appropriate markdown for readability

LEARNING STYLE ADAPTATIONS:
- For Visual learners: Include descriptions of visual concepts, diagrams, or mental models
- For Text-based learners: Provide clear, structured explanations with defined concepts
- For Hands-on learners: Include practical examples, exercises, or applications

Your explanation should be educational, accurate, and engaging.
"

/-- `_create_quiz_prompt` (lines 94-121): the quiz prompt string. -/
def _create_quiz_prompt (subject level : String) (num_questions : Nat) : String :=
  "
You are a quiz generator.

Generate a quiz on the subject **"
    ++ subject
    ++ "** at **"
    ++ level
    ++ "** level.

Instructions:
1. Generate **"
    ++ toString num_questions
    ++ "** multiple-choice questions (MCQs).
2. Each question must have exactly 4 answer options (A, B, C, D).
3. Clearly indicate the correct answer.
4. Cover diverse aspects of "
    ++ subject
    ++ ".

FORMAT YOUR RESPONSE AS JSON:
[
    \x7b
        \"question\": \"Question text\",
        \"options\": [\"Option A\", \"Option B\", \"Option C\", \"Option D\"],
        \"correct_answer\": \"Option A\",
        \"explanation\": \"Brief explanation of why this answer is correct\"
    \x7d,
    ...
]

IMPORTANT:
- Make sure to return valid JSON that can be parsed.
- Do not include any text outside the JSON array.
- Include a brief explanation for each correct answer.
"

/-- What `generate_quiz` returns: the dict
`{"quiz_data": ..., "formatted_quiz": ...}` (the second key present only
when `reveal_answer` is true). -/
structure QuizResult where
  quiz_data : Json
  formatted_quiz : Option String

/-- `generate_quiz_data(subject, level, num_questions)`.  `llmParsed`
abstracts `json.loads(llm([HumanMessage(content=prompt)]).content)`:
`.error e` when the LLM call (or client construction) raises, `.ok none`
when the returned text is not valid JSON, `.ok (some j)` when it parses to
`j`.  The prompt built from `subject`, `level` and `num_questions` is
`_create_quiz_prompt subject level num_questions`; the capability's answer
to it is the abstracted `llmParsed`. -/
def generate_quiz_data (llmParsed : Except PyErr (Option Json)) (subject level : String)
    (num_questions : Nat) : Except PyErr Json :=
  let _prompt := _create_quiz_prompt subject level num_questions
  match llmParsed with
  | .error e => .error e
  | .ok parsed => _parse_quiz_response parsed subject num_questions

/-- `generate_quiz(subject, level, num_questions, reveal_answer)`: wraps
`generate_quiz_data`, optionally renders the HTML, and re-raises any
exception as `Exception(f"Failed to generate quiz: {e}")`. -/
def generate_quiz (llmParsed : Except PyErr (Option Json)) (subject level : String)
    (num_questions : Nat) (reveal_answer : Bool) : Except PyErr QuizResult :=
  let attempt : Except PyErr QuizResult :=
    match generate_quiz_data llmParsed subject level num_questions with
    | .error e => .error e
    | .ok quiz_data =>
      if reveal_answer then
        match _format_quiz_with_reveal quiz_data with
        | .error e => .error e
        | .ok formatted => .ok { quiz_data := quiz_data, formatted_quiz := some formatted }
      else
        .ok { quiz_data := quiz_data, formatted_quiz := none }
  match attempt with
  | .ok r => .ok r
  | .error e => .error (.exception ("Failed to generate quiz: " ++ e.msg))

/-! ### `generate_tutoring_response` (lines 33-58) and
`format_tutoring_response` (lines 85-91) -/

/-- `format_tutoring_response(content, learning_style)`: a pure string
transform appending a fixed suffix for the two special learning styles. -/
def format_tutoring_response (content learning_style : String) : String :=
  if learning_style == "Visual" then
    content ++ "\n\n📝 *Note: Visualize these concepts as you read for better retention.*"
  else if learning_style == "Hands-on" then
    content ++ "\n\n🛠️ *Tip: Try working through the examples yourself to reinforce your learning.*"
  else
    content

/-- An element of a list-shaped LLM response: it either carries a `.content`
attribute or not. -/
inductive LLMItem where
  | withContent (content : String) : LLMItem
  | plain : LLMItem

/-- The known shapes an LLM response object can take, as
`generate_tutoring_response` probes them with `hasattr` / `isinstance`:
a `.content` attribute, a `.generations` attribute (nested lists of
generation texts), a plain list, or something else entirely. -/
inductive LLMResponse where
  | hasContent (content : String) : LLMResponse
  | hasGenerations (generations : List (List String)) : LLMResponse
  | isList (items : List LLMItem) : LLMResponse
  | otherShape : LLMResponse

/-- The content-extraction chain of `generate_tutoring_response`:
```python
content = None
if hasattr(response, "content"):
    content = response.content
elif hasattr(response, "generations"):
    content = response.generations[0][0].text
elif isinstance(response, list) and hasattr(response[0], "content"):
    content = response[0].content
```
`response.generations[0][0]` and `response[0]` raise `IndexError` on empty
lists; a list whose head has no `.content` leaves `content = None`. -/
def extractContent : LLMResponse → Except PyErr (Option String)
  | .hasContent s => .ok (some s)
  | .hasGenerations [] => .error (.indexError "list index out of range")
  | .hasGenerations ([] :: _) => .error (.indexError "list index out of range")
  | .hasGenerations ((t :: _) :: _) => .ok (some t)
  | .isList [] => .error (.indexError "list index out of range")
  | .isList (.withContent s :: _) => .ok (some s)
  | .isList (.plain :: _) => .ok none
  | .otherShape => .ok none

/-- `generate_tutoring_response(subject, level, question, learning_style,
background, language)`.  `llmResult` abstracts `llm([HumanMessage(...)])` on
the prompt `_create_tutoring_prompt ...`: `.error e` when the client
construction or call raises.  After extraction, `if not content:` raises on
`None` and on the empty string; every exception of the `try` block is
re-raised as `Exception(f"Failed to generate tutoring response: {e}")`. -/
def generate_tutoring_response (llmResult : Except PyErr LLMResponse)
    (subject level question learning_style background language : String) :
    Except PyErr String :=
  let _prompt := _create_tutoring_prompt subject level question learning_style background language
  let attempt : Except PyErr String :=
    match llmResult with
    | .error e => .error e
    | .ok response =>
      match extractContent response with
      | .error e => .error e
      | .ok none => .error (.exception "LLM returned no usable response content.")
      | .ok (some c) =>
        if c == "" then .error (.exception "LLM returned no usable response content.")
        else .ok (format_tutoring_response c learning_style)
  match attempt with
  | .ok s => .ok s
  | .error e => .error (.exception ("Failed to generate tutoring response: " ++ e.msg))

/-! ## Derived predicates and helper lemmas -/

/-- The schema `_validate_quiz_data` enforces on one quiz item: a dict with a
`question` entry, an `options` entry that is a list of exactly 4 values, and
a `correct_answer` entry that is Python-`==` to one of the options. -/
def wellFormedQuestion : Json → Bool
  | .obj fs =>
    (lookupField fs "question").isSome &&
    (match lookupField fs "options", lookupField fs "correct_answer" with
     | some (.arr opts), some ca => opts.length == 4 && opts.any (fun o => pyEq ca o)
     | _, _ => false)
  | _ => false

/-- The quiz item is a dict carrying an `explanation` entry. -/
def hasExplanation : Json → Bool
  | .obj fs => (lookupField fs "explanation").isSome
  | _ => false

theorem lookupField_isSome_eq_any (fs : List (String × Json)) (k : String) :
    (lookupField fs k).isSome = fs.any (fun kv => kv.1 == k) := by
  induction fs with
  | nil => rfl
  | cons kv l ih =>
    by_cases hk : kv.1 == k
    · simp [lookupField, List.find?_cons, hk]
    · simp only [lookupField, List.find?_cons, hk, List.any_cons, Bool.false_or] at *
      exact ih

theorem lookupField_append_of_some {fs : List (String × Json)} {k : String} {v : Json}
    (h : lookupField fs k = some v) (gs : List (String × Json)) :
    lookupField (fs ++ gs) k = some v := by
  induction fs with
  | nil => simp [lookupField] at h
  | cons kv l ih =>
    by_cases hk : kv.1 == k
    · simp only [List.cons_append, lookupField, List.find?_cons, hk, cond_true,
        Option.map_some'] at h ⊢
      exact h
    · simp only [lookupField, List.find?_cons, hk, cond_false, List.cons_append] at h ⊢
      exact ih h

theorem lookupField_append_of_none {fs : List (String × Json)} {k : String}
    (h : lookupField fs k = none) (gs : List (String × Json)) :
    lookupField (fs ++ gs) k = lookupField gs k := by
  induction fs with
  | nil => rfl
  | cons kv l ih =>
    by_cases hk : kv.1 == k
    · simp [lookupField, List.find?_cons, hk] at h
    · simp only [lookupField, List.find?_cons, hk, cond_false, List.cons_append] at h ⊢
      exact ih h

theorem setField_of_lookup_none {fs : List (String × Json)} {k : String}
    (h : lookupField fs k = none) (v : Json) : setField fs k v = fs ++ [(k, v)] := by
  induction fs with
  | nil => rfl
  | cons kv l ih =>
    by_cases hk : kv.1 == k
    · simp [lookupField, List.find?_cons, hk] at h
    · simp only [lookupField, List.find?_cons, hk, cond_false] at h
      simp [setField, hk, ih h]

theorem validateQuestion_ok : ∀ {q : Json}, validateQuestion q = .ok () →
    wellFormedQuestion q = true := by
  intro q h
  match q with
  | .null | .bool _ | .num _ =>
    simp [validateQuestion, requiredQuizKeys, allKeysIn, pyContains] at h
  | .str s =>
    simp only [validateQuestion, requiredQuizKeys, allKeysIn, pyContains, pySubscript] at h
    repeat split at h
    all_goals simp_all
  | .arr l =>
    simp only [validateQuestion, requiredQuizKeys, allKeysIn, pyContains, pySubscript] at h
    repeat split at h
    all_goals simp_all
  | .obj fs =>
    simp only [validateQuestion, requiredQuizKeys, allKeysIn, pyContains, pySubscript] at h
    cases h1 : fs.any (fun kv => kv.1 == "question") <;> rw [h1] at h
    · simp at h
    cases h2 : fs.any (fun kv => kv.1 == "options") <;> rw [h2] at h
    · simp at h
    cases h3 : fs.any (fun kv => kv.1 == "correct_answer") <;> rw [h3] at h
    · simp at h
    simp only [if_true] at h
    obtain ⟨vopts, hopts⟩ : ∃ v, lookupField fs "options" = some v := by
      have hs := lookupField_isSome_eq_any fs "options"
      rw [h2] at hs
      exact Option.isSome_iff_exists.mp hs
    obtain ⟨ca, hca⟩ : ∃ v, lookupField fs "correct_answer" = some v := by
      have hs := lookupField_isSome_eq_any fs "correct_answer"
      rw [h3] at hs
      exact Option.isSome_iff_exists.mp hs
    rw [hopts, hca] at h
    cases vopts with
    | arr l =>
      cases h4 : l.length == 4 with
      | false => simp [h4] at h
      | true =>
        cases h5 : l.any (fun x => pyEq ca x) with
        | false => simp [h4, h5] at h
        | true =>
          simp only [wellFormedQuestion, hopts, hca]
          rw [lookupField_isSome_eq_any, h1]
          simp [h4, h5]
    | null => simp at h
    | bool b => simp at h
    | num n => simp at h
    | str s2 => simp at h
    | obj fs2 => simp at h


theorem validateList_forall {qs : List Json} (h : validateList qs = .ok ()) :
    ∀ q ∈ qs, validateQuestion q = .ok () := by
  induction qs with
  | nil => intro q hq; cases hq
  | cons a l ih =>
    intro q hq
    rw [validateList] at h
    cases hv : validateQuestion a with
    | error e => rw [hv] at h; exact absurd h (by simp)
    | ok u =>
      rw [hv] at h
      rcases List.mem_cons.mp hq with rfl | hq2
      · cases u; exact hv
      · exact ih h q hq2

theorem backfillQuestion_wf {fs : List (String × Json)}
    (hwf : wellFormedQuestion (.obj fs) = true) :
    ∃ fs2, backfillQuestion (.obj fs) = .ok (.obj fs2) ∧
      wellFormedQuestion (.obj fs2) = true ∧
      (lookupField fs2 "explanation").isSome = true ∧
      ((lookupField fs "explanation").isSome = true → fs2 = fs) ∧
      (lookupField fs "explanation" = none →
        ∃ ca, lookupField fs "correct_answer" = some ca ∧
          fs2 = fs ++ [("explanation",
            .str ("The correct answer is " ++ pyStr ca ++ "."))]) := by
  have hwf0 := hwf
  simp only [wellFormedQuestion, Bool.and_eq_true] at hwf0
  obtain ⟨hq, hrest⟩ := hwf0
  cases hca : lookupField fs "correct_answer" with
  | none => rw [hca] at hrest; cases hlo : lookupField fs "options" <;>
      rw [hlo] at hrest <;> simp at hrest
  | some ca =>
  cases hlo : lookupField fs "options" with
  | none => rw [hca, hlo] at hrest; simp at hrest
  | some vopts =>
  rw [hca, hlo] at hrest
  cases vopts with
  | arr opts =>
    cases hex : fs.any (fun kv => kv.1 == "explanation") with
    | true =>
      refine ⟨fs, ?_, hwf, ?_, fun _ => rfl, ?_⟩
      · simp [backfillQuestion, pyContains, hex]
      · rw [lookupField_isSome_eq_any]; exact hex
      · intro hn
        have hs := lookupField_isSome_eq_any fs "explanation"
        rw [hn, hex] at hs
        simp at hs
    | false =>
      have hnone : lookupField fs "explanation" = none := by
        have hs := lookupField_isSome_eq_any fs "explanation"
        rw [hex] at hs
        exact Option.not_isSome_iff_eq_none.mp (by simp [hs])
      refine ⟨fs ++ [("explanation",
          .str ("The correct answer is " ++ pyStr ca ++ "."))], ?_, ?_, ?_, ?_, ?_⟩
      · simp [backfillQuestion, pyContains, hex, pySubscript, hca, pySetItem,
          setField_of_lookup_none hnone]
      · obtain ⟨vq, hvq⟩ := Option.isSome_iff_exists.mp hq
        simp only [wellFormedQuestion, lookupField_append_of_some hvq,
          lookupField_append_of_some hlo, lookupField_append_of_some hca,
          Option.isSome_some, Bool.true_and]
        exact hrest
      · rw [lookupField_append_of_none hnone]
        simp [lookupField]
      · intro hsome; rw [hnone] at hsome; simp at hsome
      · intro _; exact ⟨ca, rfl, rfl⟩
  | null => simp at hrest
  | bool b => simp at hrest
  | num n => simp at hrest
  | str s => simp at hrest
  | obj g => simp at hrest

theorem backfillList_wf {qs : List Json} (h : ∀ q ∈ qs, wellFormedQuestion q = true) :
    ∃ out, backfillList qs = .ok out ∧
      List.Forall₂ (fun q q2 => backfillQuestion q = .ok q2) qs out ∧
      ∀ q2 ∈ out, wellFormedQuestion q2 = true ∧ hasExplanation q2 = true := by
  induction qs with
  | nil => exact ⟨[], rfl, List.Forall₂.nil, by simp⟩
  | cons a l ih =>
    have ha := h a (List.mem_cons_self a l)
    obtain ⟨fs, rfl⟩ : ∃ fs, a = .obj fs := by
      cases a with
      | obj fs => exact ⟨fs, rfl⟩
      | null => exact absurd ha (by simp [wellFormedQuestion])
      | bool b => exact absurd ha (by simp [wellFormedQuestion])
      | num n => exact absurd ha (by simp [wellFormedQuestion])
      | str s => exact absurd ha (by simp [wellFormedQuestion])
      | arr l2 => exact absurd ha (by simp [wellFormedQuestion])
    obtain ⟨fs2, hbf, hwf2, hex2, _, _⟩ := backfillQuestion_wf ha
    obtain ⟨out, hout, hfa, hall⟩ := ih (fun q hq => h q (List.mem_cons_of_mem _ hq))
    refine ⟨.obj fs2 :: out, ?_, List.Forall₂.cons hbf hfa, ?_⟩
    · simp [backfillList, hbf, hout]
    · intro q2 hq2
      rcases List.mem_cons.mp hq2 with rfl | hq3
      · exact ⟨hwf2, by simp [hasExplanation, hex2]⟩
      · exact hall q2 hq3


theorem fallback_shape (subject : String) (n : Nat) :
    ∃ qs, pyIter (.arr (_create_fallback_quiz subject n)) = .ok qs ∧
      pyLen (.arr (_create_fallback_quiz subject n)) = .ok qs.length ∧ qs.length ≤ n ∧
      ∀ q ∈ qs, wellFormedQuestion q = true ∧ hasExplanation q = true := by
  refine ⟨_create_fallback_quiz subject n, rfl, rfl, ?_, ?_⟩
  · simp [_create_fallback_quiz]
  · intro q hq
    simp only [_create_fallback_quiz, List.mem_map] at hq
    obtain ⟨i, _, rfl⟩ := hq
    constructor
    · rfl
    · rfl

theorem parse_ok_shape {parsed : Option Json} {subject : String} {n : Nat} {quiz : Json}
    (h : _parse_quiz_response parsed subject n = .ok quiz) :
    ∃ qs, pyIter quiz = .ok qs ∧ pyLen quiz = .ok qs.length ∧ qs.length ≤ n ∧
      ∀ q ∈ qs, wellFormedQuestion q = true ∧ hasExplanation q = true := by
  rcases parsed with _ | quiz_data
  · simp only [_parse_quiz_response] at h
    cases h
    exact fallback_shape subject n
  · simp only [_parse_quiz_response] at h
    cases hv : _validate_quiz_data quiz_data with
    | error e =>
      rw [hv] at h
      cases e with
      | jsonDecodeError m => cases h; exact fallback_shape subject n
      | valueError m => cases h; exact fallback_shape subject n
      | typeError m => simp at h
      | keyError k => simp at h
      | indexError m => simp at h
      | exception m => simp at h
    | ok u =>
      cases u
      rw [hv] at h
      cases quiz_data with
      | null => simp [_validate_quiz_data, pyIter] at hv
      | bool b => simp [_validate_quiz_data, pyIter] at hv
      | num m => simp [_validate_quiz_data, pyIter] at hv
      | arr qs0 =>
        simp only [_validate_quiz_data, pyIter] at hv
        have hwfall : ∀ q ∈ qs0, wellFormedQuestion q = true :=
          fun q hq => validateQuestion_ok (validateList_forall hv q hq)
        simp only [pyLen] at h
        by_cases hlt : n < qs0.length
        · rw [if_pos hlt] at h
          simp only [pySlice, backfillAll] at h
          obtain ⟨out, hout, hfa, hall⟩ :=
            backfillList_wf (fun q hq => hwfall q (List.take_subset n qs0 hq))
          rw [hout] at h
          cases h
          refine ⟨out, rfl, rfl, ?_, fun q hq => hall q hq⟩
          rw [← hfa.length_eq, List.length_take]
          exact min_le_left _ _
        · rw [if_neg hlt] at h
          simp only [backfillAll] at h
          obtain ⟨out, hout, hfa, hall⟩ := backfillList_wf hwfall
          rw [hout] at h
          cases h
          refine ⟨out, rfl, rfl, ?_, fun q hq => hall q hq⟩
          rw [← hfa.length_eq]
          exact Nat.le_of_not_lt hlt
      | str s =>
        have hdata : s.data = [] := by
          cases hd : s.data with
          | nil => rfl
          | cons c cs =>
            simp only [_validate_quiz_data, pyIter, hd] at hv
            have h1 := validateList_forall hv (.str (String.singleton c)) (by simp)
            have h2 := validateQuestion_ok h1
            simp [wellFormedQuestion] at h2
        have hs : s = "" := by
          cases s with
          | mk data => simp at hdata; rw [hdata]
        subst hs
        simp only [pyLen, backfillAll, pyIter, backfillList] at h
        norm_num at h
        cases h
        exact ⟨[], rfl, rfl, Nat.zero_le n, by simp⟩
      | obj fs =>
        have hfs : fs = [] := by
          cases hd : fs with
          | nil => rfl
          | cons kv rest =>
            simp only [_validate_quiz_data, pyIter, hd] at hv
            have h1 := validateList_forall hv (.str kv.1) (by simp)
            have h2 := validateQuestion_ok h1
            simp [wellFormedQuestion] at h2
        subst hfs
        simp only [pyLen, backfillAll, pyIter, backfillList] at h
        norm_num at h
        cases h
        exact ⟨[], rfl, rfl, Nat.zero_le n, by simp⟩


theorem wellFormed_obj {q : Json} (h : wellFormedQuestion q = true) : ∃ fs, q = .obj fs := by
  cases q with
  | obj fs => exact ⟨fs, rfl⟩
  | null => exact absurd h (by simp [wellFormedQuestion])
  | bool b => exact absurd h (by simp [wellFormedQuestion])
  | num n => exact absurd h (by simp [wellFormedQuestion])
  | str s => exact absurd h (by simp [wellFormedQuestion])
  | arr l => exact absurd h (by simp [wellFormedQuestion])

theorem generate_quiz_ok {llmParsed : Except PyErr (Option Json)} {subject level : String}
    {n : Nat} {reveal : Bool} {r : QuizResult}
    (h : generate_quiz llmParsed subject level n reveal = .ok r) :
    ∃ parsed, llmParsed = .ok parsed ∧
      _parse_quiz_response parsed subject n = .ok r.quiz_data := by
  rcases llmParsed with e | parsed
  · simp [generate_quiz, generate_quiz_data] at h
  · refine ⟨parsed, rfl, ?_⟩
    simp only [generate_quiz, generate_quiz_data] at h
    cases hp : _parse_quiz_response parsed subject n with
    | error e => rw [hp] at h; simp at h
    | ok qd =>
      rw [hp] at h
      cases reveal with
      | false => simp only [Bool.false_eq_true, if_false] at h; cases h; rfl
      | true =>
        simp only [if_true] at h
        cases hf : _format_quiz_with_reveal qd with
        | error e => rw [hf] at h; simp at h
        | ok f => rw [hf] at h; cases h; rfl

theorem renderOptions_ok {fs : List (String × Json)} {ca : Json}
    (hca : lookupField fs "correct_answer" = some ca) (i : Nat) :
    ∀ os : List Json, ∃ s, renderOptions (.obj fs) i os = .ok s := by
  intro os
  induction os with
  | nil => exact ⟨"", rfl⟩
  | cons o rest ih =>
    obtain ⟨s, hs⟩ := ih
    simp only [renderOptions, pySubscript, hca, hs]
    exact ⟨_, rfl⟩

theorem renderQuestion_ok {fs : List (String × Json)}
    (hwf : wellFormedQuestion (.obj fs) = true) (hex : hasExplanation (.obj fs) = true)
    (i : Nat) : ∃ s, renderQuestion i (.obj fs) = .ok s := by
  simp only [wellFormedQuestion, Bool.and_eq_true] at hwf
  obtain ⟨hq, hrest⟩ := hwf
  obtain ⟨vq, hvq⟩ := Option.isSome_iff_exists.mp hq
  cases hlo : lookupField fs "options" with
  | none => rw [hlo] at hrest; simp at hrest
  | some vopts =>
  cases hca : lookupField fs "correct_answer" with
  | none => rw [hlo, hca] at hrest; cases vopts <;> simp at hrest
  | some ca =>
  rw [hlo, hca] at hrest
  cases vopts with
  | arr opts =>
    simp only [hasExplanation] at hex
    obtain ⟨ve, hve⟩ := Option.isSome_iff_exists.mp hex
    obtain ⟨so, hso⟩ := renderOptions_ok hca i opts
    simp only [renderQuestion, pySubscript, hvq, hlo, hca, hve, pyIter, hso]
    exact ⟨_, rfl⟩
  | null => simp at hrest
  | bool b => simp at hrest
  | num m => simp at hrest
  | str s2 => simp at hrest
  | obj g => simp at hrest

theorem renderQuestions_ok {qs : List Json}
    (h : ∀ q ∈ qs, wellFormedQuestion q = true ∧ hasExplanation q = true) :
    ∀ i, ∃ s, renderQuestions i qs = .ok s := by
  induction qs with
  | nil => exact fun i => ⟨"", rfl⟩
  | cons a l ih =>
    intro i
    obtain ⟨hwf, hex⟩ := h a (List.mem_cons_self a l)
    obtain ⟨fs, rfl⟩ := wellFormed_obj hwf
    obtain ⟨s1, hs1⟩ := renderQuestion_ok hwf hex i
    obtain ⟨s2, hs2⟩ := ih (fun q hq => h q (List.mem_cons_of_mem _ hq)) (i + 1)
    simp only [renderQuestions, hs1, hs2]
    exact ⟨_, rfl⟩

theorem format_quiz_ok {qs : List Json}
    (h : ∀ q ∈ qs, wellFormedQuestion q = true ∧ hasExplanation q = true) :
    ∃ s, _format_quiz_with_reveal (.arr qs) = .ok s := by
  obtain ⟨body, hbody⟩ := renderQuestions_ok h 0
  simp only [_format_quiz_with_reveal, pyIter, hbody]
  exact ⟨_, rfl⟩


/-! ## Concrete example inputs (used by witnesses and counterexamples) -/

/-- First question of the spec's §8 worked example (no `explanation`). -/
def specExampleQ1 : Json := .obj
  [("question", .str "What is 2+2?"),
   ("options", .arr [.str "3", .str "4", .str "5", .str "6"]),
   ("correct_answer", .str "4")]

/-- Second question of the spec's §8 worked example (with `explanation`). -/
def specExampleQ2 : Json := .obj
  [("question", .str "Solve x+1=2"),
   ("options", .arr [.str "0", .str "1", .str "2", .str "3"]),
   ("correct_answer", .str "1"), ("explanation", .str "Subtract 1.")]

/-- `specExampleQ1` after the backfill pass. -/
def specExampleQ1Backfilled : Json := .obj
  [("question", .str "What is 2+2?"),
   ("options", .arr [.str "3", .str "4", .str "5", .str "6"]),
   ("correct_answer", .str "4"),
   ("explanation", .str "The correct answer is 4.")]

/-- A schema-valid question whose `explanation` is present but empty and
whose options are numbers. -/
def emptyExplanationFields : List (String × Json) :=
  [("question", .str "Pick a number"),
   ("options", .arr [.num 1, .num 2, .num 3, .num 4]),
   ("correct_answer", .num 1),
   ("explanation", .str "")]

/-- A question with only three options (fails `_validate_quiz_data` with a
`ValueError`). -/
def threeOptionsQuestion : Json := .obj
  [("question", .str "Pick one"),
   ("options", .arr [.str "A", .str "B", .str "C"]),
   ("correct_answer", .str "A")]

/-- A schema-valid question used in the all-or-nothing counterexample. -/
def c3GoodQuestion : Json := .obj
  [("question", .str "Capital of France?"),
   ("options", .arr [.str "Paris", .str "Rome", .str "Berlin", .str "Madrid"]),
   ("correct_answer", .str "Paris"),
   ("explanation", .str "Paris is the capital.")]

/-- A question whose options are duplicated numbers. -/
def c9Fields : List (String × Json) :=
  [("question", .str "Which option is repeated?"),
   ("options", .arr [.num 1, .num 1, .num 2, .num 3]),
   ("correct_answer", .num 1),
   ("explanation", .str "It appears twice.")]

/-! ## The claims -/

/-- C1 (amended): for every quiz request with 1 ≤ numQuestions ≤ 10, whenever
`generate_quiz` returns rather than raising, iterating the returned quiz
yields at most `numQuestions` items, `len` agrees with that count, and every
item is a dict with a `question` entry, exactly 4 options, a
`correct_answer` Python-`==` to one of its options, and an `explanation`
entry (the original claim's "non-empty explanation" and "string-equal" are
refuted by `generate_quiz_empty_explanation`: a present-but-empty
explanation is kept, and correct answers and options need not be strings). -/
theorem generate_quiz_schema_ok (llmParsed : Except PyErr (Option Json))
    (subject level : String) (n : Nat) (reveal : Bool) (r : QuizResult)
    (_h1 : 1 ≤ n) (_h2 : n ≤ 10)
    (h : generate_quiz llmParsed subject level n reveal = .ok r) :
    ∃ qs, pyIter r.quiz_data = .ok qs ∧ pyLen r.quiz_data = .ok qs.length ∧
      qs.length ≤ n ∧
      ∀ q ∈ qs, wellFormedQuestion q = true ∧ hasExplanation q = true := by
  obtain ⟨parsed, -, hp⟩ := generate_quiz_ok h
  exact parse_ok_shape hp

/-- Witness for C1 at the spec's §8 example input with `numQuestions = 2`. -/
theorem generate_quiz_schema_ok_witness :
    ∃ qs, pyIter (QuizResult.mk (.arr [specExampleQ1Backfilled, specExampleQ2])
        none).quiz_data = .ok qs ∧
      pyLen (QuizResult.mk (.arr [specExampleQ1Backfilled, specExampleQ2])
        none).quiz_data = .ok qs.length ∧
      qs.length ≤ 2 ∧
      ∀ q ∈ qs, wellFormedQuestion q = true ∧ hasExplanation q = true :=
  generate_quiz_schema_ok (.ok (some (.arr [specExampleQ1, specExampleQ2])))
    "Algebra" "Beginner" 2 false
    (QuizResult.mk (.arr [specExampleQ1Backfilled, specExampleQ2]) none)
    (by decide) (by decide) rfl

/-- C1 counterexample: with `numQuestions = 1` (so `1 ≤ 1 ≤ 10`),
`generate_quiz` returns a question whose `explanation` is the empty string
(not non-empty) and whose `correct_answer` is a number (not string-equal to
anything); the input passes validation because the numeric correct answer is
Python-`==` to a numeric option. -/
theorem generate_quiz_empty_explanation :
    generate_quiz (.ok (some (.arr [.obj emptyExplanationFields])))
        "Arithmetic" "Beginner" 1 false =
      .ok { quiz_data := .arr [.obj emptyExplanationFields], formatted_quiz := none } ∧
    lookupField emptyExplanationFields "explanation" = some (.str "") ∧
    lookupField emptyExplanationFields "correct_answer" = some (.num 1) ∧
    (∀ s : String, Json.num 1 ≠ .str s) ∧
    (1 : Nat) ≤ 1 ∧ (1 : Nat) ≤ 10 := by
  refine ⟨rfl, rfl, rfl, ?_, Nat.le_refl 1, by decide⟩
  intro s hc
  exact Json.noConfusion hc

/-- C2: when the capability's text is not valid JSON (`json.loads` raises),
`generate_quiz` returns normally, with `quiz_data` exactly the deterministic
fallback quiz of `numQuestions` template questions — for either value of
`reveal_answer`. -/
theorem generate_quiz_invalid_json (subject level : String) (n : Nat) (reveal : Bool) :
    ∃ r, generate_quiz (.ok none) subject level n reveal = .ok r ∧
      r.quiz_data = .arr (_create_fallback_quiz subject n) ∧
      (_create_fallback_quiz subject n).length = n := by
  have hlen : (_create_fallback_quiz subject n).length = n := by
    simp [_create_fallback_quiz]
  cases reveal with
  | false =>
    exact ⟨⟨.arr (_create_fallback_quiz subject n), none⟩, rfl, rfl, hlen⟩
  | true =>
    have hfb : ∀ q ∈ _create_fallback_quiz subject n,
        wellFormedQuestion q = true ∧ hasExplanation q = true := by
      obtain ⟨qs, hi, _, _, hall⟩ := fallback_shape subject n
      cases hi
      exact hall
    obtain ⟨f, hf⟩ := format_quiz_ok hfb
    refine ⟨⟨.arr (_create_fallback_quiz subject n), some f⟩, ?_, rfl, hlen⟩
    have hparse : _parse_quiz_response none subject n =
        .ok (.arr (_create_fallback_quiz subject n)) := rfl
    simp [generate_quiz, generate_quiz_data, hparse, hf]

/-- C3 (amended): whenever `_validate_quiz_data` rejects the parsed batch
with a `ValueError` (a mapping item missing a required key, `options` not a
4-element list, or `correct_answer` not among the options), the entire batch
is discarded and replaced by the fallback quiz — every returned question is
a fallback template question, so no question of the model's batch survives.
(A non-mapping item makes the key test itself raise `TypeError` instead,
which is not caught: see `validation_typeError_no_fallback`.) -/
theorem parse_valueError_fallback (quiz_data : Json) (subject : String) (n : Nat)
    (m : String) (h : _validate_quiz_data quiz_data = .error (.valueError m)) :
    _parse_quiz_response (some quiz_data) subject n =
      .ok (.arr (_create_fallback_quiz subject n)) ∧
    ∀ q ∈ _create_fallback_quiz subject n, ∃ i, i < n ∧ q = fallbackQuestion subject i := by
  constructor
  · simp [_parse_quiz_response, h]
  · intro q hq
    simp only [_create_fallback_quiz, List.mem_map, List.mem_range] at hq
    obtain ⟨i, hi, rfl⟩ := hq
    exact ⟨i, hi, rfl⟩

/-- Witness for C3: one valid question plus one with only 3 options; the
whole batch is replaced by the fallback quiz. -/
theorem parse_valueError_fallback_witness :
    _parse_quiz_response (some (.arr [specExampleQ2, threeOptionsQuestion]))
        "Physics" 2 =
      .ok (.arr (_create_fallback_quiz "Physics" 2)) ∧
    ∀ q ∈ _create_fallback_quiz "Physics" 2, ∃ i, i < 2 ∧ q = fallbackQuestion "Physics" i :=
  parse_valueError_fallback (.arr [specExampleQ2, threeOptionsQuestion]) "Physics" 2
    "Each question must have exactly 4 options" rfl

/-- C3 counterexample: a batch holding one individually valid question and
one non-mapping item (`5`).  The item violates the schema (it is not
well-formed), yet the batch is NOT replaced by the fallback quiz —
`generate_quiz` raises (the `in` test on `5` raises `TypeError`, which
`_parse_quiz_response` does not catch). -/
theorem validation_typeError_no_fallback :
    generate_quiz (.ok (some (.arr [c3GoodQuestion, .num 5]))) "Math" "Beginner" 2 false =
      .error (.exception "Failed to generate quiz: argument of type 'int' is not iterable") ∧
    wellFormedQuestion (.num 5) = false ∧
    wellFormedQuestion c3GoodQuestion = true :=
  ⟨rfl, rfl, rfl⟩

/-- C4 (code bug): a syntactically valid JSON array holding the non-mapping
item `5` is a malformed output (it violates the schema), but it is not
recovered by fallback substitution: `"question" in 5` raises `TypeError`,
which the `except (json.JSONDecodeError, ValueError)` handler does not
catch, so `generate_quiz` raises instead of returning normally. -/
theorem parse_typeError_escapes :
    _parse_quiz_response (some (.arr [.num 5])) "Science" 1 =
      .error (.typeError "argument of type 'int' is not iterable") ∧
    generate_quiz (.ok (some (.arr [.num 5]))) "Science" "Beginner" 1 true =
      .error (.exception "Failed to generate quiz: argument of type 'int' is not iterable") :=
  ⟨rfl, rfl⟩


/-- C5: on a batch that passes validation, the pipeline keeps exactly the
prefix of the first `numQuestions` items (in their original order, each
only explanation-backfilled) when the batch is longer, and returns the
whole (backfilled) batch unchanged in length when it is not — no padding
and no further model interaction (the result is a function of the one
parsed response). -/
theorem parse_truncates_prefix (qs : List Json) (subject : String) (n : Nat)
    (h : validateList qs = .ok ()) :
    ∃ out, backfillList (qs.take n) = .ok out ∧
      _parse_quiz_response (some (.arr qs)) subject n = .ok (.arr out) ∧
      List.Forall₂ (fun q q2 => backfillQuestion q = .ok q2) (qs.take n) out ∧
      out.length = min n qs.length ∧ qs.take n <+: qs := by
  have hwfall : ∀ q ∈ qs, wellFormedQuestion q = true :=
    fun q hq => validateQuestion_ok (validateList_forall h q hq)
  obtain ⟨out, hout, hfa, _⟩ :=
    backfillList_wf (fun q hq => hwfall q (List.take_subset n qs hq))
  refine ⟨out, hout, ?_, hfa, ?_, List.take_prefix n qs⟩
  · simp only [_parse_quiz_response, _validate_quiz_data, pyIter, h, pyLen]
    by_cases hlt : n < qs.length
    · rw [if_pos hlt]
      simp only [pySlice, backfillAll, hout]
    · rw [if_neg hlt]
      have hout2 := hout
      rw [List.take_of_length_le (Nat.le_of_not_lt hlt)] at hout2
      simp only [backfillAll, hout2]
  · rw [← hfa.length_eq, List.length_take]

/-- Witness for C5: three valid questions, `numQuestions = 2` — the output
is the backfilled two-question prefix. -/
theorem parse_truncates_prefix_witness :
    ∃ out, backfillList ([specExampleQ1, specExampleQ2, c3GoodQuestion].take 2) = .ok out ∧
      _parse_quiz_response (some (.arr [specExampleQ1, specExampleQ2, c3GoodQuestion]))
        "Algebra" 2 = .ok (.arr out) ∧
      List.Forall₂ (fun q q2 => backfillQuestion q = .ok q2)
        ([specExampleQ1, specExampleQ2, c3GoodQuestion].take 2) out ∧
      out.length = min 2 [specExampleQ1, specExampleQ2, c3GoodQuestion].length ∧
      [specExampleQ1, specExampleQ2, c3GoodQuestion].take 2 <+:
        [specExampleQ1, specExampleQ2, c3GoodQuestion] :=
  parse_truncates_prefix [specExampleQ1, specExampleQ2, c3GoodQuestion] "Algebra" 2 rfl

/-- C6: the backfill loop body: a question already carrying an
`explanation` key is returned unchanged; one without it gets exactly the
string `"The correct answer is {correct_answer}."` (with the `str()` of that
question's `correct_answer` substituted) appended as a new last entry. -/
theorem backfill_explanation_default (fs : List (String × Json)) (ca : Json)
    (hca : lookupField fs "correct_answer" = some ca) :
    ((lookupField fs "explanation").isSome = true →
      backfillQuestion (.obj fs) = .ok (.obj fs)) ∧
    (lookupField fs "explanation" = none →
      backfillQuestion (.obj fs) = .ok (.obj (fs ++ [("explanation",
        .str ("The correct answer is " ++ pyStr ca ++ "."))]))) := by
  constructor
  · intro hex
    have ha : fs.any (fun kv => kv.1 == "explanation") = true := by
      rw [← lookupField_isSome_eq_any]
      exact hex
    simp [backfillQuestion, pyContains, ha]
  · intro hnone
    have ha : fs.any (fun kv => kv.1 == "explanation") = false := by
      rw [← lookupField_isSome_eq_any, hnone]
      rfl
    simp [backfillQuestion, pyContains, ha, pySubscript, hca, pySetItem,
      setField_of_lookup_none hnone]

/-- Witness for C6 at the spec's §8 example: the first question's fields
(no `explanation`, `correct_answer` `"4"`) get the backfilled entry
`"The correct answer is 4."`. -/
theorem backfill_explanation_default_witness :
    ((lookupField [("question", Json.str "What is 2+2?"),
        ("options", Json.arr [.str "3", .str "4", .str "5", .str "6"]),
        ("correct_answer", Json.str "4")] "explanation").isSome = true →
      backfillQuestion (.obj [("question", Json.str "What is 2+2?"),
        ("options", Json.arr [.str "3", .str "4", .str "5", .str "6"]),
        ("correct_answer", Json.str "4")]) =
        .ok (.obj [("question", Json.str "What is 2+2?"),
          ("options", Json.arr [.str "3", .str "4", .str "5", .str "6"]),
          ("correct_answer", Json.str "4")])) ∧
    (lookupField [("question", Json.str "What is 2+2?"),
        ("options", Json.arr [.str "3", .str "4", .str "5", .str "6"]),
        ("correct_answer", Json.str "4")] "explanation" = none →
      backfillQuestion (.obj [("question", Json.str "What is 2+2?"),
        ("options", Json.arr [.str "3", .str "4", .str "5", .str "6"]),
        ("correct_answer", Json.str "4")]) =
        .ok (.obj ([("question", Json.str "What is 2+2?"),
          ("options", Json.arr [.str "3", .str "4", .str "5", .str "6"]),
          ("correct_answer", Json.str "4")] ++ [("explanation",
            .str ("The correct answer is " ++ pyStr (.str "4") ++ "."))]))) :=
  backfill_explanation_default [("question", Json.str "What is 2+2?"),
    ("options", Json.arr [.str "3", .str "4", .str "5", .str "6"]),
    ("correct_answer", Json.str "4")] (.str "4") rfl

/-- The visual-learner suffix appended by `format_tutoring_response`. -/
def visualTipSuffix : String :=
  "\n\n📝 *Note: Visualize these concepts as you read for better retention.*"

/-- The hands-on-learner suffix appended by `format_tutoring_response`. -/
def handsOnTipSuffix : String :=
  "\n\n🛠️ *Tip: Try working through the examples yourself to reinforce your learning.*"

/-- C7: `format_tutoring_response` is a pure string transform: for
`"Visual"` it returns the text with the fixed visual tip appended exactly
once, for `"Hands-on"` the text with the fixed practice tip appended exactly
once, and for every other learning style the text unchanged — regardless of
the text's length or content. -/
theorem format_tutoring_pure_transform (content learning_style : String) :
    (learning_style = "Visual" →
      format_tutoring_response content learning_style = content ++ visualTipSuffix) ∧
    (learning_style = "Hands-on" →
      format_tutoring_response content learning_style = content ++ handsOnTipSuffix) ∧
    (learning_style ≠ "Visual" → learning_style ≠ "Hands-on" →
      format_tutoring_response content learning_style = content) := by
  refine ⟨?_, ?_, ?_⟩
  · intro h
    subst h
    rfl
  · intro h
    subst h
    rfl
  · intro h1 h2
    simp [format_tutoring_response, h1, h2]


/-- The four entries of a quiz question that `_format_quiz_with_reveal`
reads; two questions agreeing on them render identically. -/
def sameRenderFields (q1 q2 : Json) : Prop :=
  pySubscript q1 "question" = pySubscript q2 "question" ∧
  pySubscript q1 "options" = pySubscript q2 "options" ∧
  pySubscript q1 "correct_answer" = pySubscript q2 "correct_answer" ∧
  pySubscript q1 "explanation" = pySubscript q2 "explanation"

theorem renderOptions_congr {q1 q2 : Json}
    (hca : pySubscript q1 "correct_answer" = pySubscript q2 "correct_answer")
    (i : Nat) : ∀ os, renderOptions q1 i os = renderOptions q2 i os := by
  intro os
  induction os with
  | nil => rfl
  | cons o rest ih => simp only [renderOptions, hca, ih]

theorem renderQuestion_congr {q1 q2 : Json} (hsame : sameRenderFields q1 q2)
    (i : Nat) : renderQuestion i q1 = renderQuestion i q2 := by
  obtain ⟨h1, h2, h3, h4⟩ := hsame
  simp only [renderQuestion, h1, h2, h3, h4, renderOptions_congr h3 i]

theorem renderQuestions_congr {qs1 qs2 : List Json}
    (h : List.Forall₂ sameRenderFields qs1 qs2) :
    ∀ i, renderQuestions i qs1 = renderQuestions i qs2 := by
  induction h with
  | nil => intro i; rfl
  | cons hq hrest ih =>
    intro i
    simp only [renderQuestions, renderQuestion_congr hq i, ih (i + 1)]

/-- C8: the quiz renderer is a pure, deterministic function of the quiz
data: its output is fully determined by each question's `question`,
`options`, `correct_answer` and `explanation` entries (no clock, randomness
or model output enters), so rendering the same quiz data twice — or any two
quiz data agreeing on those fields — yields byte-identical markup. -/
theorem render_deterministic (qs1 qs2 : List Json)
    (h : List.Forall₂ sameRenderFields qs1 qs2) :
    _format_quiz_with_reveal (.arr qs1) = _format_quiz_with_reveal (.arr qs2) := by
  simp only [_format_quiz_with_reveal, pyIter, renderQuestions_congr h 0]

/-- Witness for C8: two quiz data that differ in dict entry order and an
extra key render to byte-identical markup. -/
theorem render_deterministic_witness :
    _format_quiz_with_reveal (.arr [.obj
      [("question", .str "Q1"),
       ("options", .arr [.str "A", .str "B", .str "C", .str "D"]),
       ("correct_answer", .str "B"), ("explanation", .str "Because.")]]) =
    _format_quiz_with_reveal (.arr [.obj
      [("explanation", .str "Because."), ("correct_answer", .str "B"),
       ("question", .str "Q1"),
       ("options", .arr [.str "A", .str "B", .str "C", .str "D"]),
       ("difficulty", .str "easy")]]) :=
  render_deterministic _ _ (List.Forall₂.cons ⟨rfl, rfl, rfl, rfl⟩ List.Forall₂.nil)

/-- C9 (amended): every question of a quiz `_parse_quiz_response` hands to
callers is a dict with a `question` entry, an ordered sequence of exactly 4
options, and a `correct_answer` Python-`==` to at least one of its options
(the original claim's "distinct display strings" and "exactly one" are
refuted by `exposed_options_not_distinct_strings`: options may repeat, may
be non-strings, and the correct answer may equal several of them). -/
theorem parse_exposed_questions (parsed : Option Json) (subject : String) (n : Nat)
    (quiz : Json) (qs : List Json)
    (h : _parse_quiz_response parsed subject n = .ok quiz)
    (hqs : pyIter quiz = .ok qs) :
    ∀ q ∈ qs, wellFormedQuestion q = true := by
  obtain ⟨qs2, hqs2, _, _, hall⟩ := parse_ok_shape h
  rw [hqs] at hqs2
  cases hqs2
  exact fun q hq => (hall q hq).1

/-- Witness for C9: the fallback path at `numQuestions = 3`, looked at its
first exposed question. -/
theorem parse_exposed_questions_witness :
    wellFormedQuestion (fallbackQuestion "Biology" 0) = true :=
  parse_exposed_questions none "Biology" 3
    (.arr (_create_fallback_quiz "Biology" 3)) (_create_fallback_quiz "Biology" 3)
    rfl rfl (fallbackQuestion "Biology" 0)
    (List.mem_map.mpr ⟨0, List.mem_range.mpr (by decide), rfl⟩)

/-- C9 counterexample: a batch whose options are `[1, 1, 2, 3]` with
correct answer `1` passes validation and is exposed unchanged: the options
are neither distinct nor strings, and the correct answer is Python-`==` to
two of them, not exactly one. -/
theorem exposed_options_not_distinct_strings :
    generate_quiz (.ok (some (.arr [.obj c9Fields]))) "History" "Beginner" 1 false =
      .ok { quiz_data := .arr [.obj c9Fields], formatted_quiz := none } ∧
    lookupField c9Fields "options" = some (.arr [.num 1, .num 1, .num 2, .num 3]) ∧
    lookupField c9Fields "correct_answer" = some (.num 1) ∧
    ¬ List.Nodup [Json.num 1, .num 1, .num 2, .num 3] ∧
    (∀ s : String, Json.num 1 ≠ .str s) ∧
    pyEq (.num 1) (.num 1) = true := by
  refine ⟨rfl, rfl, rfl, ?_, ?_, rfl⟩
  · intro hnd
    exact (List.nodup_cons.mp hnd).1 (List.mem_cons_self _ _)
  · intro s hc
    exact Json.noConfusion hc

theorem format_tutoring_nonempty {c : String} (hc : c ≠ "") (ls : String) :
    format_tutoring_response c ls ≠ "" := by
  have happ : ∀ t : String, c ++ t ≠ "" := by
    intro t he
    rw [String.ext_iff, String.data_append] at he
    exact hc (String.ext_iff.mpr (List.append_eq_nil.mp he).1)
  unfold format_tutoring_response
  split
  · exact happ _
  · split
    · exact happ _
    · exact hc

/-- C10: when the extracted content is the empty string, the tutoring
generator raises (wrapped as a generation error) rather than returning an
empty or suffix-only explanation; and whenever it does return, the returned
text is the post-processed form of a non-empty extracted content, and is
itself non-empty. -/
theorem tutoring_empty_content (llmResult : Except PyErr LLMResponse)
    (subject level question learning_style background language : String) :
    (∀ resp, llmResult = .ok resp → extractContent resp = .ok (some "") →
      generate_tutoring_response llmResult subject level question learning_style
        background language =
        .error (.exception
          "Failed to generate tutoring response: LLM returned no usable response content.")) ∧
    (∀ s, generate_tutoring_response llmResult subject level question learning_style
        background language = .ok s →
      ∃ resp c, llmResult = .ok resp ∧ extractContent resp = .ok (some c) ∧ c ≠ "" ∧
        s = format_tutoring_response c learning_style ∧ s ≠ "") := by
  constructor
  · rintro resp rfl hex
    simp only [generate_tutoring_response, hex]
    rfl
  · intro s hs
    rcases llmResult with e | resp
    · simp [generate_tutoring_response] at hs
    · cases hex : extractContent resp with
      | error e => simp [generate_tutoring_response, hex] at hs
      | ok copt =>
        cases copt with
        | none => simp [generate_tutoring_response, hex] at hs
        | some c =>
          by_cases hc : c = ""
          · subst hc
            simp [generate_tutoring_response, hex] at hs
          · have hb : (c == "") = false := beq_eq_false_iff_ne.mpr hc
            simp only [generate_tutoring_response, hex, hb, Bool.false_eq_true,
              if_false] at hs
            cases hs
            exact ⟨resp, c, rfl, hex, hc, rfl, format_tutoring_nonempty hc _⟩

end GeniusGuru
